import Mathlib

/-!
Shallow embedding of `src/app.py` (Flask shipment API, Spanish field names:
`destinatario` = recipient, `direccion` = address, `estado` = status,
`fecha_registro` = registeredAt, route `/envios` = `/shipments`).

JSON bodies are association lists of string keys to JSON values; the
database table is a list of rows together with the next autoincrement id
and the timestamp the database would assign at insertion time.
-/

namespace ApiEnvios

/-- A JSON value, as far as this API manipulates them. -/
inductive JValue where
  | null : JValue
  | str : String → JValue
  | int : Int → JValue
  | bool : Bool → JValue
  | arr : List JValue → JValue
  | obj : List (String × JValue) → JValue

/-- A parsed JSON object body: an association list (Python dict). -/
abbrev JObject := List (String × JValue)

/-- Python `data[k]` / membership: first binding of key `k`. -/
def JObject.lookup (data : JObject) (k : String) : Option JValue :=
  (data.find? (fun p => p.1 == k)).map Prod.snd

/-- Python `k in data`. -/
def JObject.hasKey (data : JObject) (k : String) : Bool :=
  (data.lookup k).isSome

/-- Python `data.get(k, d)`. -/
def JObject.getD (data : JObject) (k : String) (d : JValue) : JValue :=
  (data.lookup k).getD d

/-- One row of the `envios` table (class `Envio`, src/app.py lines 27-43).
`id` is the integer primary key; `fecha_registro` is the string rendering
of the timestamp the database assigned. The three payload columns keep
the JSON value the handler passed to the constructor. -/
structure Envio where
  id : Int
  destinatario : JValue
  direccion : JValue
  estado : JValue
  fecha_registro : String

/-- `Envio.to_dict` (src/app.py lines 36-43). -/
def Envio.to_dict (e : Envio) : JValue :=
  .obj [("id", .int e.id),
        ("destinatario", e.destinatario),
        ("direccion", e.direccion),
        ("estado", e.estado),
        ("fecha_registro", .str e.fecha_registro)]

/-- The persisted state of the `envios` table: its rows, the next
autoincrement id, and the timestamp `now()` the database would stamp on
the next insert. -/
structure DbState where
  rows : List Envio
  nextId : Int
  now : String

/-- The database never reuses ids: every persisted row's id is below the
autoincrement counter. Holds for every state reachable from an empty
table through inserts. -/
def DbState.wf (st : DbState) : Prop :=
  ∀ r ∈ st.rows, r.id < st.nextId

/-- `ok` (src/app.py lines 62-63): success envelope plus status code. -/
def ok (data : JValue) (code : Nat) : JValue × Nat :=
  (.obj [("success", .bool true), ("data", data)], code)

/-- `error` (src/app.py lines 65-66): error envelope plus status code. -/
def error (message : String) (code : Nat) : JValue × Nat :=
  (.obj [("success", .bool false), ("error", .str message)], code)

/-- Modelled from the spec: the SQLAlchemy session behind `db.session.add`
/ `db.session.commit` lives in `db.py`, which is not under src/. Per
§4.1, `insert` assigns `id` and `registeredAt`, persists the record and
returns the full stored row; it fails with a `PersistenceError`
(constraint violation or connection failure, abstracted as the `fault`
flag) and on failure any partial write is rolled back so the table is
left unchanged. -/
def insert (destinatario direccion estado : JValue) (fault : Bool)
    (st : DbState) : Except Unit (Envio × DbState) :=
  if fault then .error ()
  else
    let row : Envio := ⟨st.nextId, destinatario, direccion, estado, st.now⟩
    .ok (row, ⟨st.rows ++ [row], st.nextId + 1, st.now⟩)

/-- Modelled from the spec: `Envio.query.get(id)` (primary-key lookup) is
SQLAlchemy machinery not under src/; per §4.1, `getById` returns the
single matching record or NotFound. -/
def queryGet (st : DbState) (id : Int) : Option Envio :=
  st.rows.find? (fun r => r.id == id)

/-- Handler `health` (src/app.py lines 71-73). -/
def health : JValue × Nat :=
  ok (.obj [("status", .str "ok")]) 200

/-- Handler `listar_envios` (src/app.py lines 78-81). -/
def listar_envios (st : DbState) : JValue × Nat :=
  ok (.arr (st.rows.map Envio.to_dict)) 200

/-- Handler `obtener_envio` (src/app.py lines 86-91). -/
def obtener_envio (st : DbState) (id : Int) : JValue × Nat :=
  match queryGet st id with
  | none => error "Envío no encontrado" 404
  | some envio => ok (envio.to_dict) 200

/-- `required = ["destinatario", "direccion"]` (src/app.py line 101). -/
def requiredFields : List String := ["destinatario", "direccion"]

/-- `missing = [f for f in required if f not in data]` (line 102). -/
def missingFields (data : JObject) : List String :=
  requiredFields.filter (fun f => !data.hasKey f)

/-- Handler `crear_envio` (src/app.py lines 96-119). The request body is
`none` when `request.json` yields no object (missing or unparseable
body), in which case `request.json or {}` makes it the empty dict. The
handler returns the HTTP response and the table state after the request
(on persistence failure the session is rolled back, leaving the state
unchanged). -/
def crear_envio (body : Option JObject) (fault : Bool) (st : DbState) :
    (JValue × Nat) × DbState :=
  let data := body.getD []
  let missing := missingFields data
  if missing.isEmpty then
    match insert ((data.lookup "destinatario").getD .null)
                 ((data.lookup "direccion").getD .null)
                 (data.getD "estado" (.str "Registrado")) fault st with
    | .ok (envio, st') => (ok (envio.to_dict) 201, st')
    | .error _ => (error "Error al guardar en la base de datos" 500, st)
  else
    (error ("Faltan campos obligatorios: " ++ String.intercalate ", " missing) 400, st)

/-! Concrete inputs shared by the witnesses and counterexamples. -/

/-- A valid create body: both required fields, `estado` omitted. -/
def dataAna : JObject :=
  [("destinatario", .str "Ana Gomez"), ("direccion", .str "Calle 1")]

/-- A create body missing `direccion`. -/
def dataOnlyDest : JObject := [("destinatario", .str "Ana Gomez")]

/-- The empty table, autoincrement counter at 1. -/
def st0 : DbState := ⟨[], 1, "2024-01-01 00:00:00"⟩

/-- A table holding one row with id 1. -/
def row1 : Envio :=
  ⟨1, .str "Ana Gomez", .str "Calle 1", .str "Registrado", "2024-01-01 00:00:00"⟩

/-- A one-row table. -/
def st1 : DbState := ⟨[row1], 2, "2024-01-01 00:00:00"⟩

/-- A create body whose `destinatario` is JSON null. -/
def dataNullDest : JObject :=
  [("destinatario", JValue.null), ("direccion", .str "Calle 1")]

/-- A create body whose required fields are both the empty string. -/
def dataEmptyStrs : JObject :=
  [("destinatario", .str ""), ("direccion", .str "")]

/-- A create body carrying client-supplied `id` and `fecha_registro`
keys besides the payload fields. -/
def dataWithExtras : JObject :=
  [("destinatario", .str "Ana Gomez"), ("direccion", .str "Calle 1"),
   ("id", .int 99), ("fecha_registro", .str "1999-01-01 00:00:00")]

/-- The two envelope shapes produced by `ok` and `error`: the response
body is `{success: true, data: ...}` or `{success: false, error: ...}`. -/
def isEnvelope (resp : JValue × Nat) : Prop :=
  (∃ d, resp.1 = .obj [("success", .bool true), ("data", d)]) ∨
  (∃ m, resp.1 = .obj [("success", .bool false), ("error", .str m)])

/-! Helper lemmas. -/

/-- `missingFields` unfolded over the two required fields. -/
lemma missingFields_eq (data : JObject) :
    missingFields data =
      (if data.hasKey "destinatario" then [] else ["destinatario"]) ++
      (if data.hasKey "direccion" then [] else ["direccion"]) := by
  cases hc : data.hasKey "destinatario" <;> cases hd : data.hasKey "direccion" <;>
    simp [missingFields, requiredFields, hc, hd]

/-- Validation passes exactly when both required keys are present. -/
lemma missingFields_isEmpty (data : JObject) :
    (missingFields data).isEmpty =
      (data.hasKey "destinatario" && data.hasKey "direccion") := by
  cases hc : data.hasKey "destinatario" <;> cases hd : data.hasKey "direccion" <;>
    simp [missingFields_eq, hc, hd]

/-- `find?` over an appended singleton when nothing on the left matches. -/
lemma find?_append_singleton (l : List Envio) (x : Envio) (p : Envio → Bool)
    (h : ∀ r ∈ l, p r = false) (hx : p x = true) :
    (l ++ [x]).find? p = some x := by
  induction l with
  | nil => simp [List.find?, hx]
  | cons a t ih =>
    have ha : p a = false := h a (by simp)
    simp only [List.cons_append, List.find?, ha]
    exact ih (fun r hr => h r (by simp [hr]))

/-- `find?` by id returns the matching row when ids are pairwise distinct. -/
lemma find?_of_mem_unique {l : List Envio} {r : Envio} {id : Int}
    (huniq : l.Pairwise (fun a b => a.id ≠ b.id)) (hr : r ∈ l) (hid : r.id = id) :
    l.find? (fun s => s.id == id) = some r := by
  induction l with
  | nil => cases hr
  | cons a t ih =>
    rcases List.mem_cons.mp hr with h | h
    · subst h
      simp [List.find?, hid]
    · have hane : a.id ≠ id := by
        have := (List.pairwise_cons.mp huniq).1 r h
        omega
      have : (a.id == id) = false := by simp [hane]
      simp only [List.find?, this]
      exact ih (List.pairwise_cons.mp huniq).2 h

/-- What a create request can do to the table: leave it unchanged, or —
only when both required keys were present and the insert did not fault —
append exactly one row built from the body's three payload fields, with
id and timestamp assigned by the database. -/
lemma crear_envio_state_change (body : Option JObject) (fault : Bool) (st : DbState) :
    (crear_envio body fault st).2 = st ∨
    ((body.getD []).hasKey "destinatario" = true ∧
     (body.getD []).hasKey "direccion" = true ∧
     fault = false ∧
     (crear_envio body fault st).2.rows =
       st.rows ++ [⟨st.nextId, ((body.getD []).lookup "destinatario").getD .null,
                   ((body.getD []).lookup "direccion").getD .null,
                   (body.getD []).getD "estado" (.str "Registrado"), st.now⟩]) := by
  by_cases hm : (missingFields (body.getD [])).isEmpty
  · cases fault with
    | true =>
      left
      simp [crear_envio, hm, insert]
    | false =>
      right
      have hks := hm
      rw [missingFields_isEmpty] at hks
      refine ⟨((Bool.and_eq_true _ _).mp hks).1,
              ((Bool.and_eq_true _ _).mp hks).2, rfl, ?_⟩
      simp [crear_envio, hm, insert]
  · left
    simp [crear_envio, hm]

/-! Theorems for the claims. -/

/-- C1: for every create request whose body contains non-empty
`destinatario` and `direccion` and whose insert does not fault, the
response is 201 with the created record: a newly assigned id equal to the
autoincrement counter, hence differing from every previously persisted
id; a `fecha_registro` value; and `estado` the supplied value or
`"Registrado"` when absent. -/
theorem crear_envio_valid (data : JObject) (st : DbState) (d a : String)
    (hd : data.lookup "destinatario" = some (.str d)) (hd' : d ≠ "")
    (ha : data.lookup "direccion" = some (.str a)) (ha' : a ≠ "")
    (hwf : st.wf) :
    crear_envio (some data) false st =
      (ok (Envio.to_dict ⟨st.nextId, .str d, .str a,
            data.getD "estado" (.str "Registrado"), st.now⟩) 201,
       ⟨st.rows ++ [⟨st.nextId, .str d, .str a,
            data.getD "estado" (.str "Registrado"), st.now⟩], st.nextId + 1, st.now⟩)
    ∧ ∀ r ∈ st.rows, r.id ≠ st.nextId := by
  have h1 : data.hasKey "destinatario" = true := by
    simp [JObject.hasKey, hd]
  have h2 : data.hasKey "direccion" = true := by
    simp [JObject.hasKey, ha]
  have hm : (missingFields data).isEmpty = true := by
    rw [missingFields_isEmpty, h1, h2]
    rfl
  constructor
  · simp [crear_envio, hm, insert, hd, ha]
  · intro r hr
    have := hwf r hr
    omega

/-- Witness for C1 at a concrete valid request on the empty table. -/
theorem crear_envio_valid_witness :
    crear_envio (some dataAna) false st0 =
      (ok (Envio.to_dict row1) 201, ⟨[row1], 2, "2024-01-01 00:00:00"⟩) := by
  have h := crear_envio_valid dataAna st0 "Ana Gomez" "Calle 1" rfl
    (by decide) rfl (by decide) (by intro r hr; simp [st0] at hr)
  exact h.1

/-- C2: a create request missing `destinatario`, `direccion`, or both,
gets status 400 with a message listing exactly the missing required
fields — every missing one — and the table is unchanged. -/
theorem crear_envio_missing (body : Option JObject) (fault : Bool) (st : DbState)
    (h : missingFields (body.getD []) ≠ []) :
    crear_envio body fault st =
      (error ("Faltan campos obligatorios: " ++
         String.intercalate ", " (missingFields (body.getD []))) 400, st)
    ∧ ∀ f, f ∈ missingFields (body.getD []) ↔
        (f ∈ requiredFields ∧ (body.getD []).hasKey f = false) := by
  have hm : (missingFields (body.getD [])).isEmpty = false := by
    cases hmf : missingFields (body.getD []) with
    | nil => exact absurd hmf h
    | cons x t => rfl
  constructor
  · simp [crear_envio, hm]
  · intro f
    simp [missingFields, List.mem_filter]

/-- Witness for C2: body supplying only `destinatario`. -/
theorem crear_envio_missing_witness :
    crear_envio (some dataOnlyDest) false st0 =
      (error "Faltan campos obligatorios: direccion" 400, st0) := by
  exact (crear_envio_missing (some dataOnlyDest) false st0 (by decide)).1

/-- C3: on a table whose ids are pairwise distinct (the primary-key
invariant), `obtener_envio` answers the fixed 404 error envelope exactly
when no persisted row has the requested id, and otherwise answers 200
with the success envelope carrying exactly the row with that id. -/
theorem obtener_envio_spec (st : DbState) (id : Int)
    (huniq : st.rows.Pairwise (fun a b => a.id ≠ b.id)) :
    (obtener_envio st id = error "Envío no encontrado" 404 ↔
       ∀ r ∈ st.rows, r.id ≠ id)
    ∧ ∀ r ∈ st.rows, r.id = id → obtener_envio st id = ok r.to_dict 200 := by
  constructor
  · constructor
    · intro h r hr hid
      have hq : queryGet st id = some r := find?_of_mem_unique huniq hr hid
      rw [obtener_envio, hq] at h
      have : (200 : Nat) = 404 := congrArg Prod.snd h
      omega
    · intro h
      have hq : queryGet st id = none := by
        rw [queryGet, List.find?_eq_none]
        intro r hr
        simp [h r hr]
      rw [obtener_envio, hq]
  · intro r hr hid
    have hq : queryGet st id = some r := find?_of_mem_unique huniq hr hid
    rw [obtener_envio, hq]

/-- Witness for C3: the one-row table answers 200 for id 1 and the fixed
404 envelope for id 999999. -/
theorem obtener_envio_spec_witness :
    obtener_envio st1 1 = ok (Envio.to_dict row1) 200 ∧
    obtener_envio st1 999999 = error "Envío no encontrado" 404 := by
  have hu : st1.rows.Pairwise (fun a b => a.id ≠ b.id) := by
    simp [st1]
  constructor
  · exact (obtener_envio_spec st1 1 hu).2 row1 (by simp [st1]) rfl
  · exact (obtener_envio_spec st1 999999 hu).1.mpr
      (by intro r hr; simp [st1] at hr; rw [hr]; simp [row1])

/-- C4: when the insert behind a well-formed create request faults, the
handler rolls the session back — the table after the request is exactly
the table before it — and answers the error envelope with the generic
database message and status 500. -/
theorem crear_envio_fault (data : JObject) (st : DbState)
    (h1 : data.hasKey "destinatario" = true)
    (h2 : data.hasKey "direccion" = true) :
    crear_envio (some data) true st =
      (error "Error al guardar en la base de datos" 500, st) := by
  have hm : (missingFields data).isEmpty = true := by
    rw [missingFields_isEmpty, h1, h2]
    rfl
  simp [crear_envio, hm, insert]

/-- Witness for C4 at a concrete valid body over the empty table. -/
theorem crear_envio_fault_witness :
    crear_envio (some dataAna) true st0 =
      (error "Error al guardar en la base de datos" 500, st0) := by
  exact crear_envio_fault dataAna st0 (by decide) (by decide)

/-- Counterexample to C5: a body carrying `destinatario: null` passes
validation — the computed missing list is empty and the response status
is 201, not the claimed 400. -/
theorem crear_envio_nullvalue_cex :
    missingFields dataNullDest = [] ∧
    (crear_envio (some dataNullDest) false st0).1.2 = 201 ∧
    ¬ (crear_envio (some dataNullDest) false st0).1.2 = 400 := by
  refine ⟨rfl, rfl, ?_⟩
  intro h
  have h201 : (crear_envio (some dataNullDest) false st0).1.2 = 201 := rfl
  rw [h201] at h
  omega

/-- C5 amended: create-request validation checks only that the
`destinatario` and `direccion` keys are present in the body — a present
key passes even with a null value. The response status is 400 exactly
when at least one of the two keys is absent. -/
theorem crear_envio_validation_presence (data : JObject) (fault : Bool) (st : DbState) :
    (crear_envio (some data) fault st).1.2 = 400 ↔
      ¬ (data.hasKey "destinatario" = true ∧ data.hasKey "direccion" = true) := by
  by_cases h1 : data.hasKey "destinatario" = true
  · by_cases h2 : data.hasKey "direccion" = true
    · have hm : (missingFields data).isEmpty = true := by
        rw [missingFields_isEmpty, h1, h2]
        rfl
      cases fault with
      | true => simp [crear_envio, hm, insert, ok, error, h1, h2]
      | false => simp [crear_envio, hm, insert, ok, error, h1, h2]
    · have hm : (missingFields data).isEmpty = false := by
        rw [missingFields_isEmpty, h1]
        simpa using h2
      simp [crear_envio, hm, error, h2]
  · have hm : (missingFields data).isEmpty = false := by
      rw [missingFields_isEmpty]
      simpa using fun h => absurd h h1
    simp [crear_envio, hm, error, h1]

/-- Counterexample to C6: a create request whose `destinatario` and
`direccion` are empty strings is accepted with 201 and a record with
empty recipient and address is persisted. -/
theorem crear_envio_emptystring_cex :
    (crear_envio (some dataEmptyStrs) false st0).1.2 = 201 ∧
    (crear_envio (some dataEmptyStrs) false st0).2.rows =
      [⟨1, .str "", .str "", .str "Registrado", "2024-01-01 00:00:00"⟩] := by
  exact ⟨rfl, rfl⟩

/-- C6 amended: validation before the write enforces only that the
`destinatario` and `direccion` keys are present: every record the create
handler persists comes from a body carrying both keys, whose values —
possibly empty strings — are stored as supplied, with id and timestamp
assigned by the database. -/
theorem crear_envio_persist_requires_keys (body : Option JObject) (fault : Bool)
    (st : DbState) :
    (crear_envio body fault st).2 = st ∨
    ((body.getD []).hasKey "destinatario" = true ∧
     (body.getD []).hasKey "direccion" = true ∧
     (crear_envio body fault st).2.rows =
       st.rows ++ [⟨st.nextId, ((body.getD []).lookup "destinatario").getD .null,
                   ((body.getD []).lookup "direccion").getD .null,
                   (body.getD []).getD "estado" (.str "Registrado"), st.now⟩]) := by
  rcases crear_envio_state_change body fault st with h | ⟨h1, h2, _, h4⟩
  · exact Or.inl h
  · exact Or.inr ⟨h1, h2, h4⟩

/-- C7: a POST with missing or unparseable JSON body is handled as an
empty object: it reaches validation and yields the 400 envelope naming
both required fields, with the table untouched, whatever the fault flag
or table state. -/
theorem crear_envio_no_body (fault : Bool) (st : DbState) :
    crear_envio none fault st =
      (error "Faltan campos obligatorios: destinatario, direccion" 400, st) := by
  rfl

/-- C8: after a successful create on a well-formed table, POST's 201
response and a subsequent GET for the assigned id — with no intervening
write — carry the very same serialized shipment object. -/
theorem create_then_get_roundtrip (data : JObject) (st : DbState) (d a : String)
    (hd : data.lookup "destinatario" = some (.str d))
    (ha : data.lookup "direccion" = some (.str a))
    (hwf : st.wf) :
    (crear_envio (some data) false st).1 =
      ok (Envio.to_dict ⟨st.nextId, .str d, .str a,
            data.getD "estado" (.str "Registrado"), st.now⟩) 201
    ∧ obtener_envio (crear_envio (some data) false st).2 st.nextId =
      ok (Envio.to_dict ⟨st.nextId, .str d, .str a,
            data.getD "estado" (.str "Registrado"), st.now⟩) 200 := by
  have h1 : data.hasKey "destinatario" = true := by
    simp [JObject.hasKey, hd]
  have h2 : data.hasKey "direccion" = true := by
    simp [JObject.hasKey, ha]
  have hm : (missingFields data).isEmpty = true := by
    rw [missingFields_isEmpty, h1, h2]
    rfl
  have hc : crear_envio (some data) false st =
      (ok (Envio.to_dict ⟨st.nextId, .str d, .str a,
            data.getD "estado" (.str "Registrado"), st.now⟩) 201,
       ⟨st.rows ++ [⟨st.nextId, .str d, .str a,
            data.getD "estado" (.str "Registrado"), st.now⟩], st.nextId + 1, st.now⟩) := by
    simp [crear_envio, hm, insert, hd, ha]
  refine ⟨by rw [hc], ?_⟩
  rw [hc]
  have hfind : queryGet ⟨st.rows ++ [⟨st.nextId, .str d, .str a,
        data.getD "estado" (.str "Registrado"), st.now⟩], st.nextId + 1, st.now⟩
        st.nextId =
      some ⟨st.nextId, .str d, .str a,
        data.getD "estado" (.str "Registrado"), st.now⟩ := by
    apply find?_append_singleton
    · intro r hr
      have := hwf r hr
      simp only [beq_eq_false_iff_ne, ne_eq]
      omega
    · simp
  rw [obtener_envio, hfind]

/-- Witness for C8 on the empty table with a concrete valid body. -/
theorem create_then_get_roundtrip_witness :
    (crear_envio (some dataAna) false st0).1 = ok (Envio.to_dict row1) 201 ∧
    obtener_envio (crear_envio (some dataAna) false st0).2 1 =
      ok (Envio.to_dict row1) 200 := by
  exact create_then_get_roundtrip dataAna st0 "Ana Gomez" "Calle 1" rfl rfl
    (by intro r hr; simp [st0] at hr)

/-- C9: every handler's response body is one of the two envelopes —
`{success: true, data: ...}` or `{success: false, error: ...}` — for
every table state, id, request body and fault outcome. -/
theorem handlers_return_envelopes (st : DbState) (id : Int)
    (body : Option JObject) (fault : Bool) :
    isEnvelope health ∧ isEnvelope (listar_envios st) ∧
    isEnvelope (obtener_envio st id) ∧
    isEnvelope (crear_envio body fault st).1 := by
  refine ⟨Or.inl ⟨_, rfl⟩, Or.inl ⟨_, rfl⟩, ?_, ?_⟩
  · rw [obtener_envio]
    cases hq : queryGet st id with
    | none => exact Or.inr ⟨_, rfl⟩
    | some e => exact Or.inl ⟨_, rfl⟩
  · by_cases hm : (missingFields (body.getD [])).isEmpty
    · cases fault with
      | true =>
        have : crear_envio body true st =
            (error "Error al guardar en la base de datos" 500, st) := by
          simp [crear_envio, hm, insert]
        rw [this]
        exact Or.inr ⟨_, rfl⟩
      | false =>
        have : (crear_envio body false st).1 =
            ok (Envio.to_dict ⟨st.nextId,
              ((body.getD []).lookup "destinatario").getD .null,
              ((body.getD []).lookup "direccion").getD .null,
              (body.getD []).getD "estado" (.str "Registrado"), st.now⟩) 201 := by
          simp [crear_envio, hm, insert]
        rw [this]
        exact Or.inl ⟨_, rfl⟩
    · have hm' : (missingFields (body.getD [])).isEmpty = false := by
        simpa using hm
      have : (crear_envio body fault st).1 =
          error ("Faltan campos obligatorios: " ++
            String.intercalate ", " (missingFields (body.getD []))) 400 := by
        simp [crear_envio, hm']
      rw [this]
      exact Or.inr ⟨_, rfl⟩

/-- C10: only the `destinatario`, `direccion` and `estado` fields of the
body influence a create request — two bodies agreeing on those three
lookups produce identical responses and identical table states, whatever
other keys (a client-supplied id or timestamp included) they carry — and
every row a create adds gets its id and `fecha_registro` from the
database state, never from the body. -/
theorem crear_envio_frame (d1 d2 : JObject) (fault : Bool) (st : DbState)
    (h1 : d1.lookup "destinatario" = d2.lookup "destinatario")
    (h2 : d1.lookup "direccion" = d2.lookup "direccion")
    (h3 : d1.lookup "estado" = d2.lookup "estado") :
    crear_envio (some d1) fault st = crear_envio (some d2) fault st
    ∧ ∀ r ∈ (crear_envio (some d1) fault st).2.rows,
        r ∈ st.rows ∨ (r.id = st.nextId ∧ r.fecha_registro = st.now) := by
  have ek1 : d1.hasKey "destinatario" = d2.hasKey "destinatario" := by
    rw [JObject.hasKey, JObject.hasKey, h1]
  have ek2 : d1.hasKey "direccion" = d2.hasKey "direccion" := by
    rw [JObject.hasKey, JObject.hasKey, h2]
  have em : missingFields d1 = missingFields d2 := by
    rw [missingFields_eq, missingFields_eq, ek1, ek2]
  have eg : d1.getD "estado" (.str "Registrado") =
      d2.getD "estado" (.str "Registrado") := by
    rw [JObject.getD, JObject.getD, h3]
  constructor
  · unfold crear_envio
    simp only [Option.getD_some]
    rw [em, h1, h2, eg]
  · intro r hr
    rcases crear_envio_state_change (some d1) fault st with h | ⟨_, _, _, h4⟩
    · rw [h] at hr
      exact Or.inl hr
    · rw [h4] at hr
      rcases List.mem_append.mp hr with h | h
      · exact Or.inl h
      · simp only [List.mem_singleton] at h
        rw [h]
        exact Or.inr ⟨rfl, rfl⟩

/-- Witness for C10: a body with client-supplied `id` and
`fecha_registro` keys behaves exactly like the plain body, and the
persisted row keeps the database-assigned id and timestamp. -/
theorem crear_envio_frame_witness :
    crear_envio (some dataWithExtras) false st0 =
      crear_envio (some dataAna) false st0 ∧
    ∀ r ∈ (crear_envio (some dataWithExtras) false st0).2.rows,
      r ∈ st0.rows ∨ (r.id = 1 ∧ r.fecha_registro = "2024-01-01 00:00:00") := by
  exact crear_envio_frame dataWithExtras dataAna false st0 rfl rfl rfl

end ApiEnvios
